import Mathlib

/-!
Shallow embedding of the biomarker-selection notebook
`cll_t2d_common_analysis` (BioMarkerPredictionML).

The notebook loads a CSV whose columns are numeric gene-expression features
plus a `label` column, standardizes the features (output unused downstream),
fits three selectors (Lasso with alpha = 0.01, RandomForestClassifier with
n_estimators = 100 and random_state = 42, and RFE over a linear SVC with
n_features_to_select = 10) on the raw feature matrix `X` and label vector
`y`, builds a sorted importance table per selector, filters each by
`Importance > 0`, intersects the three feature-name sets, compiles a scored
table and a t-test table over the intersection, and writes both as CSV.

Third-party numeric routines (sklearn estimators, scipy `ttest_ind`,
`StandardScaler`) are modelled as function parameters collected in `Libs`:
given the fixed hyperparameters and seeds of the source, each is a
deterministic function of its inputs.  All of the notebook own logic
(table building, sorting, filtering, set intersection, score lookup, label
grouping, CSV shape) is embedded concretely below.
-/

namespace BioMarker

/-- A row of the loaded CSV: feature values addressed by column name, plus
the value of the `label` column. -/
structure Sample where
  val : String → ℚ
  label : ℤ

/-- The loaded dataset: `features` are the column names other than `label`
(the columns of `X` (the data with the label column dropped)), `samples` the rows. -/
structure Dataset where
  features : List String
  samples : List Sample

/-- Outcomes of the third-party library calls, as deterministic functions of
their inputs (the source fixes every hyperparameter and random seed:
Lasso with alpha=0.01, RandomForestClassifier with n_estimators=100 and
random_state=42, `SVC` with linear kernel and random_state=42 inside
RFE with n_features_to_select=10, `StandardScaler`, `scipy.stats.ttest_ind`). -/
structure Libs where
  /-- Model of `StandardScaler.fit_transform` on the feature matrix. -/
  scaler : List (List ℚ) → List (List ℚ)
  /-- Model of `lasso.coef_` after the fit on (X, y): one coefficient per feature column. -/
  lassoCoef : List (List ℚ) → List ℤ → List ℚ
  /-- Model of `rf.feature_importances_` after the fit on (X, y). -/
  rfImportances : List (List ℚ) → List ℤ → List ℚ
  /-- Model of `rfe.ranking_` after the fit on (X, y): elimination rank per feature. -/
  rfeRanking : List (List ℚ) → List ℤ → List ℕ
  /-- Model of `scipy.stats.ttest_ind` on two groups with an equal_var flag:
  returns the (t-statistic, p-value) pair. -/
  ttest : List ℚ → List ℚ → Bool → ℚ × ℚ

/-- The fixed Lasso regularization strength `alpha=0.01` of the source. -/
def lasso_alpha : ℚ := 1 / 100

/-- The fixed random seed `random_state=42` used by both seeded estimators. -/
def random_state : ℕ := 42

/-- The fixed tree count `n_estimators=100` of the random forest. -/
def rf_n_estimators : ℕ := 100

/-- The fixed RFE target `n_features_to_select=10`. -/
def rfe_n_features_to_select : ℕ := 10

/-- The feature matrix `X` (the data with the label column dropped): per sample, the
raw values of the non-label columns, in column order. -/
def X (d : Dataset) : List (List ℚ) :=
  d.samples.map (fun s => d.features.map s.val)

/-- The target vector `y`, the label column of the data. -/
def y (d : Dataset) : List ℤ :=
  d.samples.map Sample.label

/-- `X_scaled = scaler.fit_transform(X)` — computed but never consumed by
any later step of the notebook. -/
def X_scaled (L : Libs) (d : Dataset) : List (List ℚ) :=
  L.scaler (X d)

/-- A row of a selector `feature_importance` DataFrame. -/
structure FIRow where
  feature : String
  importance : ℚ

/-- Descending-importance order on `FIRow` used by
`sort_values` by Importance, descending. -/
def impGE (a b : FIRow) : Prop := b.importance ≤ a.importance

instance : DecidableRel impGE := fun _a _b => inferInstanceAs (Decidable (_ ≤ _))

instance : IsTotal FIRow impGE := ⟨fun a b => le_total b.importance a.importance⟩

instance : IsTrans FIRow impGE := ⟨fun _x _z _w h h' => le_trans h' h⟩

/-- Model of the `pd.DataFrame` built from the Feature and Importance columns followed
by `sort_values` by Importance, descending: pair each column name with
its score and sort by score descending (tie order among equal scores is
unspecified in the source; the embedding uses a stable sort). -/
def feature_importance (features : List String) (importance : List ℚ) : List FIRow :=
  List.insertionSort impGE ((features.zip importance).map (fun p => ⟨p.1, p.2⟩))

/-- `np.abs(lasso.coef_)` where the Lasso is fit on the raw `X` and `y`. -/
def lasso_importance (L : Libs) (d : Dataset) : List ℚ :=
  (L.lassoCoef (X d) (y d)).map (fun c => |c|)

/-- `lasso_feature_importance`: sorted Lasso table filtered to `Importance > 0`. -/
def lasso_feature_importance (L : Libs) (d : Dataset) : List FIRow :=
  (feature_importance d.features (lasso_importance L d)).filter
    (fun r => 0 < r.importance)

/-- `rf_feature_importance`: sorted random-forest table (fit on raw `X`, `y`)
filtered to `Importance > 0`. -/
def rf_feature_importance (L : Libs) (d : Dataset) : List FIRow :=
  (feature_importance d.features (L.rfImportances (X d) (y d))).filter
    (fun r => 0 < r.importance)

/-- `svmrfe_feature_importance`: the RFE ranking (an integer per feature) is
stored in the `Importance` column, sorted, then filtered to `Importance > 0.0`. -/
def svmrfe_feature_importance (L : Libs) (d : Dataset) : List FIRow :=
  (feature_importance d.features
      ((L.rfeRanking (X d) (y d)).map (fun n : ℕ => (n : ℚ)))).filter
    (fun r => 0 < r.importance)

/-- Model of `lasso_features`, the Python set of the Feature column of the filtered Lasso table. -/
def lasso_features (L : Libs) (d : Dataset) : Finset String :=
  ((lasso_feature_importance L d).map FIRow.feature).toFinset

/-- Model of `rf_features`, the Python set of the Feature column of the filtered forest table. -/
def rf_features (L : Libs) (d : Dataset) : Finset String :=
  ((rf_feature_importance L d).map FIRow.feature).toFinset

/-- Model of `svmrfe_features`, the Python set of the Feature column of the filtered RFE table. -/
def svmrfe_features (L : Libs) (d : Dataset) : Finset String :=
  ((svmrfe_feature_importance L d).map FIRow.feature).toFinset

/-- `intersection_features = lasso_features.intersection(rf_features).intersection(svmrfe_features)`. -/
def intersection_features (L : Libs) (d : Dataset) : Finset String :=
  lasso_features L d ∩ rf_features L d ∩ svmrfe_features L d

/-- `common_biomarkers = list(intersection_features)` (some enumeration of
the set; the embedding fixes the lexicographic one). -/
def common_biomarkers (L : Libs) (d : Dataset) : List String :=
  (intersection_features L d).sort (fun a b => a ≤ b)

/-- Model of the lookup of feature f in a table: filter the rows whose Feature
equals f, take the Importance column, and read element 0, as an `Option`:
`none` models the `IndexError` Python would raise on an empty match. -/
def importanceLookup (tbl : List FIRow) (f : String) : Option ℚ :=
  ((tbl.filter (fun r => r.feature = f)).map FIRow.importance).head?

/-- A row of the `selected_features` DataFrame (dict keys Feature,
Lasso, Random Forest, SVM-RFE). -/
structure ScoreRow where
  feature : String
  lassoScore : ℚ
  randomForestScore : ℚ
  svmrfeScore : ℚ

/-- One iteration of the score-compilation loop: look each feature up in the
three filtered tables and take element 0 of the matches. -/
def scoreRow (L : Libs) (d : Dataset) (f : String) : Option ScoreRow :=
  match importanceLookup (lasso_feature_importance L d) f,
        importanceLookup (rf_feature_importance L d) f,
        importanceLookup (svmrfe_feature_importance L d) f with
  | some ls, some rs, some ss => some ⟨f, ls, rs, ss⟩
  | _, _, _ => none

/-- The `rows` list built by iterating over `intersection_features`; `none`
models an uncaught `IndexError` in some iteration. -/
def rows (L : Libs) (d : Dataset) : Option (List ScoreRow) :=
  (common_biomarkers L d).mapM (scoreRow L d)

/-- `selected_features = pd.DataFrame(rows)` (its data rows). -/
def selected_features (L : Libs) (d : Dataset) : List ScoreRow :=
  (rows L d).getD []

/-- Keys of the dicts appended to `rows`. -/
def score_csv_columns : List String :=
  ["Feature", "Lasso", "Random Forest", "SVM-RFE"]

/-- Keys of the dicts appended to `t_test_results`. -/
def t_test_csv_columns : List String :=
  ["Feature", "t-statistic", "p-value"]

/-- Columns of `pd.DataFrame(rows)` where `rows` is a list of dicts sharing
the keys `keys`: pandas derives the columns from the dicts, so an empty list
yields a DataFrame with no columns at all. -/
def df_columns (keys : List String) (nrows : ℕ) : List String :=
  if nrows = 0 then [] else keys

/-- The header line `to_csv(index=False)` writes: the column names joined by
commas. -/
def csv_header (cols : List String) : String :=
  String.intercalate "," cols

/-- Header line of `results/cll_t2d_multimode_selected_features.csv`. -/
def selected_features_csv_header (L : Libs) (d : Dataset) : String :=
  csv_header (df_columns score_csv_columns (selected_features L d).length)

/-- Model of `group1`: select the rows of `common_biomarkers_df` whose label is 0
and read the column of the given feature;
the raw values of `feature` over the samples whose label is 0. -/
def group1 (d : Dataset) (f : String) : List ℚ :=
  (d.samples.filter (fun s => s.label = 0)).map (fun s => s.val f)

/-- Model of `group2`: the rows whose label is 1, at the given feature column. -/
def group2 (d : Dataset) (f : String) : List ℚ :=
  (d.samples.filter (fun s => s.label = 1)).map (fun s => s.val f)

/-- The `equal_var` argument of the `ttest_ind(group1, group2)` call: the
source passes none, and the scipy documented default is `True` (the Student
equal-variance two-sample test rather than the Welch variant). -/
def ttest_equal_var : Bool := true

/-- A row of the `t_test_results` DataFrame. -/
structure TRow where
  feature : String
  tStat : ℚ
  pValue : ℚ

/-- The `t_test_results` list: for each common biomarker, the pair returned
by `ttest_ind` applied to the label-0 and label-1 groups of its raw values. -/
def t_test_results (L : Libs) (d : Dataset) : List TRow :=
  (common_biomarkers L d).map (fun f =>
    let r := L.ttest (group1 d f) (group2 d f) ttest_equal_var
    ⟨f, r.1, r.2⟩)

/-- Header line of `results/cll_t2d_multimode_t_test_results.csv`. -/
def t_test_results_csv_header (L : Libs) (d : Dataset) : String :=
  csv_header (df_columns t_test_csv_columns (t_test_results L d).length)

/-- A concrete instantiation of the library outcomes, used to evaluate the
pipeline on a small input: identity scaler, Lasso coefficients (1, 0),
forest importances (0, 1), RFE ranking (1, 1), and a constant test. -/
def L0 : Libs :=
  ⟨fun m => m, fun _X _y => [1, 0], fun _X _y => [0, 1], fun _X _y => [1, 1],
   fun _g1 _g2 _e => (0, 0)⟩

/-- A concrete two-sample dataset with feature columns A and B and labels 0
and 1. -/
def d0 : Dataset :=
  ⟨["A", "B"], [⟨fun _f => 1, 0⟩, ⟨fun _f => 2, 1⟩]⟩

/-! Helper lemmas about the importance tables. -/

theorem mem_feature_importance_iff {fs : List String} {is : List ℚ} {r : FIRow} :
    r ∈ feature_importance fs is ↔
      r ∈ (fs.zip is).map (fun p => (⟨p.1, p.2⟩ : FIRow)) :=
  (List.perm_insertionSort impGE _).mem_iff

theorem feature_mem_of_mem {fs : List String} {is : List ℚ} {r : FIRow}
    (h : r ∈ feature_importance fs is) : r.feature ∈ fs := by
  rcases List.mem_map.mp (mem_feature_importance_iff.mp h) with ⟨p, hp, he⟩
  rw [← he]
  exact (List.of_mem_zip hp).1

theorem importance_mem_of_mem {fs : List String} {is : List ℚ} {r : FIRow}
    (h : r ∈ feature_importance fs is) : r.importance ∈ is := by
  rcases List.mem_map.mp (mem_feature_importance_iff.mp h) with ⟨p, hp, he⟩
  rw [← he]
  exact (List.of_mem_zip hp).2

theorem map_feature_perm (fs : List String) (is : List ℚ)
    (hlen : fs.length ≤ is.length) :
    ((feature_importance fs is).map FIRow.feature).Perm fs := by
  have h2 : ((fs.zip is).map (fun p => (⟨p.1, p.2⟩ : FIRow))).map FIRow.feature = fs := by
    rw [List.map_map]
    exact List.map_fst_zip fs is hlen
  have hp :=
    (List.perm_insertionSort impGE
      ((fs.zip is).map (fun p => (⟨p.1, p.2⟩ : FIRow)))).map FIRow.feature
  rw [h2] at hp
  exact hp

theorem mem_features_of_mem_selected {fs : List String} {is : List ℚ}
    {p : FIRow → Bool} {f : String}
    (h : f ∈ ((feature_importance fs is).filter p).map FIRow.feature) : f ∈ fs := by
  rcases List.mem_map.mp h with ⟨r, hr, he⟩
  rw [← he]
  exact feature_mem_of_mem (List.mem_of_mem_filter hr)

theorem lasso_features_subset (L : Libs) (d : Dataset) :
    lasso_features L d ⊆ d.features.toFinset := fun _f hf =>
  List.mem_toFinset.mpr (mem_features_of_mem_selected (List.mem_toFinset.mp hf))

theorem rf_features_subset (L : Libs) (d : Dataset) :
    rf_features L d ⊆ d.features.toFinset := fun _f hf =>
  List.mem_toFinset.mpr (mem_features_of_mem_selected (List.mem_toFinset.mp hf))

theorem svmrfe_features_subset (L : Libs) (d : Dataset) :
    svmrfe_features L d ⊆ d.features.toFinset := fun _f hf =>
  List.mem_toFinset.mpr (mem_features_of_mem_selected (List.mem_toFinset.mp hf))

theorem lookup_isSome_of_mem {tbl : List FIRow} {f : String}
    (h : f ∈ tbl.map FIRow.feature) : (importanceLookup tbl f).isSome := by
  rcases List.mem_map.mp h with ⟨r, hr, he⟩
  have hmem : r ∈ tbl.filter (fun t => t.feature = f) :=
    List.mem_filter.mpr ⟨hr, by simp [he]⟩
  have hne : tbl.filter (fun t => t.feature = f) ≠ [] := List.ne_nil_of_mem hmem
  exact List.head?_isSome.mpr (by simpa using hne)

theorem mem_sets_of_mem_cb {L : Libs} {d : Dataset} {f : String}
    (h : f ∈ common_biomarkers L d) :
    f ∈ lasso_features L d ∧ f ∈ rf_features L d ∧ f ∈ svmrfe_features L d := by
  have h2 : f ∈ intersection_features L d := (Finset.mem_sort _).mp h
  simp only [intersection_features, Finset.mem_inter] at h2
  exact ⟨h2.1.1, h2.1.2, h2.2⟩

theorem scoreRow_isSome_of_mem_cb {L : Libs} {d : Dataset} {f : String}
    (h : f ∈ common_biomarkers L d) : (scoreRow L d f).isSome := by
  obtain ⟨h1, h2, h3⟩ := mem_sets_of_mem_cb h
  obtain ⟨a, ha⟩ := Option.isSome_iff_exists.mp
    (lookup_isSome_of_mem (List.mem_toFinset.mp h1))
  obtain ⟨b, hb⟩ := Option.isSome_iff_exists.mp
    (lookup_isSome_of_mem (List.mem_toFinset.mp h2))
  obtain ⟨c, hc⟩ := Option.isSome_iff_exists.mp
    (lookup_isSome_of_mem (List.mem_toFinset.mp h3))
  rw [scoreRow, ha, hb, hc]
  rfl

theorem mapM_eq_some_of_isSome {α β : Type} (g : α → Option β) :
    ∀ l : List α, (∀ a ∈ l, (g a).isSome) →
      ∃ bs, l.mapM g = some bs ∧ List.Forall₂ (fun a b => g a = some b) l bs
  | [], _ => ⟨[], rfl, List.Forall₂.nil⟩
  | a :: l, h => by
    obtain ⟨b, hb⟩ := Option.isSome_iff_exists.mp (h a (List.mem_cons_self a l))
    obtain ⟨bs, hbs, hfa⟩ :=
      mapM_eq_some_of_isSome g l (fun x hx => h x (List.mem_cons_of_mem a hx))
    exact ⟨b :: bs, by rw [List.mapM_cons, hb, hbs]; rfl, List.Forall₂.cons hb hfa⟩

theorem map_eq_of_forall₂ {α β : Type} (h : β → α) {R : α → β → Prop}
    (hr : ∀ a b, R a b → h b = a) :
    ∀ {l : List α} {bs : List β}, List.Forall₂ R l bs → bs.map h = l := by
  intro l bs hf
  induction hf with
  | nil => rfl
  | cons hab _ ih => simp [hr _ _ hab, ih]

theorem forall₂_mem_right {α β : Type} {R : α → β → Prop} :
    ∀ {l : List α} {bs : List β}, List.Forall₂ R l bs → ∀ b ∈ bs, ∃ a ∈ l, R a b := by
  intro l bs hf
  induction hf with
  | nil => intro b hb; cases hb
  | cons hab _ ih =>
    intro b hb
    rcases List.mem_cons.mp hb with he | hm
    · exact ⟨_, List.mem_cons_self _ _, he ▸ hab⟩
    · rcases ih b hm with ⟨a, ha, hr⟩
      exact ⟨a, List.mem_cons_of_mem _ ha, hr⟩

theorem scoreRow_spec {L : Libs} {d : Dataset} {f : String} {r : ScoreRow}
    (h : scoreRow L d f = some r) :
    r.feature = f ∧
    importanceLookup (lasso_feature_importance L d) f = some r.lassoScore ∧
    importanceLookup (rf_feature_importance L d) f = some r.randomForestScore ∧
    importanceLookup (svmrfe_feature_importance L d) f = some r.svmrfeScore := by
  unfold scoreRow at h
  cases hl : importanceLookup (lasso_feature_importance L d) f <;> rw [hl] at h
  · simp at h
  cases hb : importanceLookup (rf_feature_importance L d) f <;> rw [hb] at h
  · simp at h
  cases hc : importanceLookup (svmrfe_feature_importance L d) f <;> rw [hc] at h
  · simp at h
  simp only [Option.some.injEq] at h
  subst h
  exact ⟨rfl, rfl, rfl, rfl⟩

theorem countP_add_countP_of_exclusive {α : Type} (p q : α → Bool)
    (h : ∀ a, p a = true → q a = true → False) :
    ∀ l : List α, l.countP p + l.countP q = l.countP (fun a => p a || q a)
  | [] => rfl
  | a :: l => by
    have ih := countP_add_countP_of_exclusive p q h l
    by_cases hp : p a = true
    · have hq : q a = false := by
        cases hqv : q a
        · rfl
        · exact absurd (h a hp hqv) (fun hc => hc)
      simp [List.countP_cons, hp, hq]
      omega
    · simp only [Bool.not_eq_true] at hp
      simp [List.countP_cons, hp]
      by_cases hq : q a = true <;> simp [hq] <;> omega

/-! Claim theorems. -/

/-- C1: for every input dataset (and any fit outcome in which, as the RFE
contract guarantees, every elimination rank is at least 1 and there is one
rank per feature), the SVM-RFE retained feature set — the features whose
rank is filtered by `> 0` — equals the entire feature set of the dataset,
and consequently the three-way intersection equals the intersection of just
the Lasso and RandomForest selected sets. -/
theorem c1_svmrfe_selects_all (L : Libs) (d : Dataset)
    (hlen : (L.rfeRanking (X d) (y d)).length = d.features.length)
    (hrank : ∀ r ∈ L.rfeRanking (X d) (y d), 1 ≤ r) :
    svmrfe_features L d = d.features.toFinset ∧
    intersection_features L d = lasso_features L d ∩ rf_features L d := by
  have hq : ∀ r ∈ feature_importance d.features
      ((L.rfeRanking (X d) (y d)).map (fun n : ℕ => (n : ℚ))), (0 : ℚ) < r.importance := by
    intro r hr
    rcases List.mem_map.mp (importance_mem_of_mem hr) with ⟨n, hn, he⟩
    have hpos : 0 < n := Nat.lt_of_lt_of_le Nat.zero_lt_one (hrank n hn)
    rw [← he]
    exact_mod_cast hpos
  have hfilter : svmrfe_feature_importance L d =
      feature_importance d.features ((L.rfeRanking (X d) (y d)).map (fun n : ℕ => (n : ℚ))) := by
    unfold svmrfe_feature_importance
    exact List.filter_eq_self.mpr (fun r hr => by simpa using hq r hr)
  have hperm : ((feature_importance d.features
      ((L.rfeRanking (X d) (y d)).map (fun n : ℕ => (n : ℚ)))).map FIRow.feature).Perm
        d.features :=
    map_feature_perm _ _ (by rw [List.length_map, hlen])
  have hsvm : svmrfe_features L d = d.features.toFinset := by
    unfold svmrfe_features
    rw [hfilter]
    exact List.toFinset_eq_iff_perm_dedup.mpr hperm.dedup
  refine ⟨hsvm, ?_⟩
  have hsub : lasso_features L d ∩ rf_features L d ⊆ svmrfe_features L d := by
    rw [hsvm]
    exact fun f hf => lasso_features_subset L d (Finset.mem_inter.mp hf).1
  exact Finset.inter_eq_left.mpr hsub

/-- Witness for C1 at a concrete library outcome and dataset. -/
theorem c1_svmrfe_selects_all_witness :
    (L0.rfeRanking (X d0) (y d0)).length = d0.features.length ∧
    (svmrfe_features L0 d0 = d0.features.toFinset ∧
     intersection_features L0 d0 = lasso_features L0 d0 ∩ rf_features L0 d0) :=
  ⟨by decide, c1_svmrfe_selects_all L0 d0 (by decide) (by decide)⟩

/-- C3: the intersection is a subset of each of the three selected sets,
contains exactly the feature names present in all three, and its listed
form has no duplicates. -/
theorem c3_intersection_exact (L : Libs) (d : Dataset) :
    intersection_features L d ⊆ lasso_features L d ∧
    intersection_features L d ⊆ rf_features L d ∧
    intersection_features L d ⊆ svmrfe_features L d ∧
    (∀ f, f ∈ intersection_features L d ↔
      f ∈ lasso_features L d ∧ f ∈ rf_features L d ∧ f ∈ svmrfe_features L d) ∧
    (common_biomarkers L d).Nodup := by
  refine ⟨?_, ?_, ?_, ?_, ?_⟩
  · exact fun f hf => (Finset.mem_inter.mp (Finset.mem_inter.mp hf).1).1
  · exact fun f hf => (Finset.mem_inter.mp (Finset.mem_inter.mp hf).1).2
  · exact fun f hf => (Finset.mem_inter.mp hf).2
  · intro f
    simp [intersection_features, Finset.mem_inter, and_assoc]
  · exact Finset.sort_nodup _ _

/-- Witness for C3 at a concrete library outcome and dataset. -/
theorem c3_intersection_exact_witness : (common_biomarkers L0 d0).Nodup :=
  (c3_intersection_exact L0 d0).2.2.2.2

/-- C9: for every feature in the intersection, the lookup of its row in each
of the three selector importance tables is non-empty (element 0 exists), and
the whole score-compilation loop therefore completes without an index
error. -/
theorem c9_score_lookups_safe (L : Libs) (d : Dataset) :
    (∀ f ∈ common_biomarkers L d,
      (importanceLookup (lasso_feature_importance L d) f).isSome ∧
      (importanceLookup (rf_feature_importance L d) f).isSome ∧
      (importanceLookup (svmrfe_feature_importance L d) f).isSome) ∧
    (rows L d).isSome := by
  refine ⟨fun f hf => ?_, ?_⟩
  · obtain ⟨h1, h2, h3⟩ := mem_sets_of_mem_cb hf
    exact ⟨lookup_isSome_of_mem (List.mem_toFinset.mp h1),
           lookup_isSome_of_mem (List.mem_toFinset.mp h2),
           lookup_isSome_of_mem (List.mem_toFinset.mp h3)⟩
  · obtain ⟨bs, hbs, _⟩ := mapM_eq_some_of_isSome (scoreRow L d) (common_biomarkers L d)
      (fun f hf => scoreRow_isSome_of_mem_cb hf)
    unfold rows
    rw [hbs]
    rfl

/-- Witness for C9 at a concrete library outcome and dataset. -/
theorem c9_score_lookups_safe_witness : (rows L0 d0).isSome :=
  (c9_score_lookups_safe L0 d0).2

/-- C4: the scored table has exactly one row per intersected feature, each
row carrying exactly the importance values the three selector tables assign
to that feature, and the t-test table likewise has exactly one row per
intersected feature. -/
theorem c4_tables_shape (L : Libs) (d : Dataset) :
    ∃ rs, rows L d = some rs ∧ selected_features L d = rs ∧
      rs.map ScoreRow.feature = common_biomarkers L d ∧
      rs.length = (intersection_features L d).card ∧
      (∀ r ∈ rs,
        importanceLookup (lasso_feature_importance L d) r.feature = some r.lassoScore ∧
        importanceLookup (rf_feature_importance L d) r.feature = some r.randomForestScore ∧
        importanceLookup (svmrfe_feature_importance L d) r.feature = some r.svmrfeScore) ∧
      (t_test_results L d).map TRow.feature = common_biomarkers L d ∧
      (t_test_results L d).length = (intersection_features L d).card := by
  obtain ⟨rs, hrs, hfa⟩ := mapM_eq_some_of_isSome (scoreRow L d) (common_biomarkers L d)
    (fun f hf => scoreRow_isSome_of_mem_cb hf)
  have hmap : rs.map ScoreRow.feature = common_biomarkers L d :=
    map_eq_of_forall₂ ScoreRow.feature (fun a b hb => (scoreRow_spec hb).1) hfa
  have hlen : rs.length = (intersection_features L d).card := by
    rw [← hfa.length_eq]
    unfold common_biomarkers
    exact Finset.length_sort _
  refine ⟨rs, hrs, ?_, hmap, hlen, ?_, ?_, ?_⟩
  · unfold selected_features rows
    rw [hrs]
    rfl
  · intro r hr
    obtain ⟨f, _hf, hsr⟩ := forall₂_mem_right hfa r hr
    obtain ⟨h1, h2, h3, h4⟩ := scoreRow_spec hsr
    rw [h1]
    exact ⟨h2, h3, h4⟩
  · unfold t_test_results
    rw [List.map_map]
    exact List.map_id _
  · unfold t_test_results common_biomarkers
    rw [List.length_map]
    exact Finset.length_sort _

/-- Witness for C4 at a concrete library outcome and dataset. -/
theorem c4_tables_shape_witness :
    (selected_features L0 d0).length = (intersection_features L0 d0).card := by
  obtain ⟨rs, _h1, h2, _h3, h4, _⟩ := c4_tables_shape L0 d0
  rw [h2]
  exact h4

/-- C5: for every feature in the intersection, the validator partitions the
raw values of that feature by label into the label-0 and label-1 groups and
passes them, with the equal-variance flag at its default `true`, to the
two-sample test, emitting the resulting (t-statistic, p-value) pair. -/
theorem c5_ttest_grouping (L : Libs) (d : Dataset) :
    t_test_results L d =
      (common_biomarkers L d).map (fun f =>
        ⟨f,
          (L.ttest ((d.samples.filter (fun s => s.label = 0)).map (fun s => s.val f))
            ((d.samples.filter (fun s => s.label = 1)).map (fun s => s.val f)) true).1,
          (L.ttest ((d.samples.filter (fun s => s.label = 0)).map (fun s => s.val f))
            ((d.samples.filter (fun s => s.label = 1)).map (fun s => s.val f)) true).2⟩) ∧
    ttest_equal_var = true :=
  ⟨rfl, rfl⟩

/-- C6: replacing the standardizer by any other function changes `X_scaled`
at most, and none of the selector tables, the intersection, or the output
tables: every selector is fit on the raw matrix `X` and the original label
column, and the label column is not touched by the scaler (which only ever
receives `X`). -/
theorem c6_scaled_matrix_unused (L : Libs)
    (s' : List (List ℚ) → List (List ℚ)) (d : Dataset) :
    X_scaled { L with scaler := s' } d = s' (X d) ∧
    y d = d.samples.map Sample.label ∧
    lasso_importance { L with scaler := s' } d = lasso_importance L d ∧
    lasso_feature_importance { L with scaler := s' } d = lasso_feature_importance L d ∧
    rf_feature_importance { L with scaler := s' } d = rf_feature_importance L d ∧
    svmrfe_feature_importance { L with scaler := s' } d = svmrfe_feature_importance L d ∧
    intersection_features { L with scaler := s' } d = intersection_features L d ∧
    selected_features { L with scaler := s' } d = selected_features L d ∧
    t_test_results { L with scaler := s' } d = t_test_results L d :=
  ⟨rfl, rfl, rfl, rfl, rfl, rfl, rfl, rfl, rfl⟩

/-- C7: for each selector, the unfiltered importance table contains every
feature of the dataset exactly once (its Feature column is a duplicate-free
permutation of the feature list) and is ordered by importance score
descending. -/
theorem c7_importance_tables (L : Libs) (d : Dataset)
    (hnd : d.features.Nodup)
    (h1 : (L.lassoCoef (X d) (y d)).length = d.features.length)
    (h2 : (L.rfImportances (X d) (y d)).length = d.features.length)
    (h3 : (L.rfeRanking (X d) (y d)).length = d.features.length) :
    (((feature_importance d.features (lasso_importance L d)).map FIRow.feature).Perm
        d.features ∧
      ((feature_importance d.features (lasso_importance L d)).map FIRow.feature).Nodup ∧
      List.Sorted impGE (feature_importance d.features (lasso_importance L d))) ∧
    (((feature_importance d.features (L.rfImportances (X d) (y d))).map FIRow.feature).Perm
        d.features ∧
      ((feature_importance d.features (L.rfImportances (X d) (y d))).map FIRow.feature).Nodup ∧
      List.Sorted impGE (feature_importance d.features (L.rfImportances (X d) (y d)))) ∧
    (((feature_importance d.features
          ((L.rfeRanking (X d) (y d)).map (fun n : ℕ => (n : ℚ)))).map FIRow.feature).Perm
        d.features ∧
      ((feature_importance d.features
          ((L.rfeRanking (X d) (y d)).map (fun n : ℕ => (n : ℚ)))).map FIRow.feature).Nodup ∧
      List.Sorted impGE (feature_importance d.features
        ((L.rfeRanking (X d) (y d)).map (fun n : ℕ => (n : ℚ))))) := by
  have gen : ∀ is : List ℚ, d.features.length ≤ is.length →
      ((feature_importance d.features is).map FIRow.feature).Perm d.features ∧
      ((feature_importance d.features is).map FIRow.feature).Nodup ∧
      List.Sorted impGE (feature_importance d.features is) := by
    intro is hle
    have hp := map_feature_perm d.features is hle
    refine ⟨hp, hp.nodup_iff.mpr hnd, ?_⟩
    unfold feature_importance
    exact List.sorted_insertionSort impGE _
  exact ⟨gen _ (by simp [lasso_importance, h1]),
         gen _ (le_of_eq h2.symm),
         gen _ (by simp [h3])⟩

/-- Witness for C7 at a concrete library outcome and dataset. -/
theorem c7_importance_tables_witness :
    d0.features.Nodup ∧
    (((feature_importance d0.features (lasso_importance L0 d0)).map FIRow.feature).Perm
        d0.features ∧
      ((feature_importance d0.features (lasso_importance L0 d0)).map FIRow.feature).Nodup ∧
      List.Sorted impGE (feature_importance d0.features (lasso_importance L0 d0))) :=
  ⟨by decide, (c7_importance_tables L0 d0 (by decide) (by decide) (by decide) (by decide)).1⟩

/-- C8: the embedded pipeline is deterministic — two runs on identical input
data, with the fixed hyperparameters and seeds (hence identical library
outcome functions), produce identical intersection sets, identical scored
tables, and identical t-test tables. -/
theorem c8_deterministic (L : Libs) (d1 d2 : Dataset) (h : d1 = d2) :
    intersection_features L d1 = intersection_features L d2 ∧
    selected_features L d1 = selected_features L d2 ∧
    t_test_results L d1 = t_test_results L d2 := by
  subst h
  exact ⟨rfl, rfl, rfl⟩

/-- Witness for C8 at a concrete library outcome and dataset. -/
theorem c8_deterministic_witness :
    intersection_features L0 d0 = intersection_features L0 d0 ∧
    selected_features L0 d0 = selected_features L0 d0 ∧
    t_test_results L0 d0 = t_test_results L0 d0 :=
  c8_deterministic L0 d0 d0 rfl

/-- C10: each t-test group gathers exactly the samples whose label equals 0
(respectively 1); samples with any other label are counted in neither
group, and the validator still produces one row per intersected feature
whatever the labels are (no error on non-binary labels). -/
theorem c10_nonbinary_labels_excluded (L : Libs) (d : Dataset) (f : String) :
    (group1 d f).length = d.samples.countP (fun s => s.label = 0) ∧
    (group2 d f).length = d.samples.countP (fun s => s.label = 1) ∧
    (group1 d f).length + (group2 d f).length =
      d.samples.countP (fun s => s.label = 0 ∨ s.label = 1) ∧
    (t_test_results L d).length = (common_biomarkers L d).length := by
  have hg1 : (group1 d f).length = d.samples.countP (fun s => s.label = 0) := by
    simp [group1, List.countP_eq_length_filter]
  have hg2 : (group2 d f).length = d.samples.countP (fun s => s.label = 1) := by
    simp [group2, List.countP_eq_length_filter]
  refine ⟨hg1, hg2, ?_, ?_⟩
  · rw [hg1, hg2,
      countP_add_countP_of_exclusive (fun s => decide (s.label = 0))
        (fun s => decide (s.label = 1))
        (fun a ha hb => by simp at ha hb; omega) d.samples]
    simp [Bool.decide_or]
  · unfold t_test_results
    exact List.length_map _ _

/-- C2, counterexample: a concrete input on which the three selectors agree
on nothing.  The intersection is empty and the pipeline completes, but the
two CSV files do NOT carry the claimed named header rows: `pd.DataFrame` on
an empty row list has no columns, so each header is empty. -/
theorem c2_counterexample :
    intersection_features L0 d0 = ∅ ∧
    selected_features_csv_header L0 d0 ≠ csv_header score_csv_columns ∧
    t_test_results_csv_header L0 d0 ≠ csv_header t_test_csv_columns := by
  have h0 : intersection_features L0 d0 = ∅ := by decide
  have hcb : common_biomarkers L0 d0 = [] := by
    unfold common_biomarkers
    rw [h0]
    exact Finset.sort_empty _
  have hsel : selected_features L0 d0 = [] := by
    unfold selected_features rows
    rw [hcb]
    rfl
  have httr : t_test_results L0 d0 = [] := by
    unfold t_test_results
    rw [hcb]
    rfl
  refine ⟨h0, ?_, ?_⟩
  · unfold selected_features_csv_header
    rw [hsel]
    decide
  · unfold t_test_results_csv_header
    rw [httr]
    decide

/-- C2 as amended: if the intersection is empty the pipeline raises no
exception and both output CSVs contain zero data rows — but their header
row is empty (no column names) rather than the named column header,
because the DataFrames are built from an empty list of dicts. -/
theorem c2_amended_empty_outputs (L : Libs) (d : Dataset)
    (h : intersection_features L d = ∅) :
    rows L d = some [] ∧ selected_features L d = [] ∧ t_test_results L d = [] ∧
    (selected_features L d).length = 0 ∧ (t_test_results L d).length = 0 ∧
    selected_features_csv_header L d = "" ∧ t_test_results_csv_header L d = "" := by
  have hcb : common_biomarkers L d = [] := by
    unfold common_biomarkers
    rw [h]
    exact Finset.sort_empty _
  have hrows : rows L d = some [] := by
    unfold rows
    rw [hcb]
    rfl
  have hsel : selected_features L d = [] := by
    unfold selected_features rows
    rw [hcb]
    rfl
  have httr : t_test_results L d = [] := by
    unfold t_test_results
    rw [hcb]
    rfl
  refine ⟨hrows, hsel, httr, by rw [hsel]; rfl, by rw [httr]; rfl, ?_, ?_⟩
  · unfold selected_features_csv_header
    rw [hsel]
    rfl
  · unfold t_test_results_csv_header
    rw [httr]
    rfl

/-- Witness for the amended C2 at a concrete library outcome and dataset. -/
theorem c2_amended_empty_outputs_witness :
    intersection_features L0 d0 = ∅ ∧
    (rows L0 d0 = some [] ∧ selected_features L0 d0 = [] ∧ t_test_results L0 d0 = [] ∧
     (selected_features L0 d0).length = 0 ∧ (t_test_results L0 d0).length = 0 ∧
     selected_features_csv_header L0 d0 = "" ∧ t_test_results_csv_header L0 d0 = "") :=
  ⟨by decide, c2_amended_empty_outputs L0 d0 (by decide)⟩

end BioMarker
